import Mathlib

/-!
Verification development for the iOS LLDB DAP server core.

The Rust sources (`gdb_remote.rs`, `symbols.rs`, `backend.rs`, `main.rs`)
are shallowly embedded below.  Machine integers become `Nat`/`Int` with
explicit `% 2^w` where the Rust code wraps; Rust `&str` values that are
byte-sliced are embedded as `List Char` together with their UTF-8 byte
layout, so that the byte-index panics of Rust slicing are representable
(`none` of an outer `Option` marks a panic).  External effects (TCP
streams, serde decoding, the DWARF library) are modelled as oracle
values carried in the state structures; everything the repository's own
code does with those oracle results is embedded faithfully.
-/

/-! ## UTF-8 byte layout of characters

`charUtf8Size c` is the number of bytes of `c` in UTF-8, mirroring how
Rust measures `str::len` and checks slice boundaries. -/

def charUtf8Size (c : Char) : Nat :=
  if c.toNat ≤ 0x7F then 1
  else if c.toNat ≤ 0x7FF then 2
  else if c.toNat ≤ 0xFFFF then 3
  else 4

def utf8Len (s : List Char) : Nat :=
  (s.map charUtf8Size).sum

/-- Split a string at a byte index: `some (pre, suf)` when the index is a
character boundary within the string, `none` otherwise (where Rust byte
slicing would panic). -/
def splitAtByte : List Char → Nat → Option (List Char × List Char)
  | s, 0 => some ([], s)
  | [], _ + 1 => none
  | c :: rest, k + 1 =>
    if charUtf8Size c ≤ k + 1 then
      (splitAtByte rest (k + 1 - charUtf8Size c)).map (fun p => (c :: p.1, p.2))
    else none

/-! ## Hex parsing (`u8::from_str_radix` / `u64::from_str_radix`, radix 16)

Rust's `from_str_radix` for an unsigned type accepts an optional leading
`'+'`, then one or more digits of the radix, and fails on overflow. -/

def hexVal? (c : Char) : Option Nat :=
  if 48 ≤ c.toNat ∧ c.toNat ≤ 57 then some (c.toNat - 48)
  else if 97 ≤ c.toNat ∧ c.toNat ≤ 102 then some (c.toNat - 87)
  else if 65 ≤ c.toNat ∧ c.toNat ≤ 70 then some (c.toNat - 55)
  else none

def parseHexNat (s : List Char) : Option Nat :=
  s.foldl
    (fun acc c =>
      match acc, hexVal? c with
      | some v, some d => some (16 * v + d)
      | _, _ => none)
    (some 0)

def fromDigits (width : Nat) (digits : List Char) : Option Nat :=
  match parseHexNat digits with
  | some v => if v < 2 ^ width then some v else none
  | none => none

/-- `from_str_radix width s`: hexadecimal parse of `s` into an unsigned
integer of `width` bits.  Overflow of the target width is a failure, as
in Rust (intermediate checked arithmetic is equivalent to the final
bound because the accumulated value only grows). -/
def from_str_radix (width : Nat) (s : List Char) : Option Nat :=
  match s with
  | [] => none
  | c :: rest =>
    if c = '+' then if rest = [] then none else fromDigits width rest
    else fromDigits width (c :: rest)

/-! ## `gdb_remote.rs`: stop replies -/

inductive StopReason where
  | breakpoint
  | step
  | signal
  | unknown (s : String)
deriving DecidableEq, Repr

structure StopReply where
  signal : Nat
  thread_id : Option Nat
  reason : StopReason
deriving DecidableEq, Repr

/-- Rust `str::split(';')`: the list of `;`-separated fragments (an empty
string yields one empty fragment). -/
def splitSemi : List Char → List (List Char)
  | [] => [[]]
  | c :: rest =>
    if c = ';' then [] :: splitSemi rest
    else
      match splitSemi rest with
      | [] => [[c]]
      | p :: ps => (c :: p) :: ps

/-- `str::strip_prefix` with a `List Char` pattern. -/
def stripTag : List Char → List Char → Option (List Char)
  | [], rest => some rest
  | _ :: _, [] => none
  | t :: ts, c :: cs => if c = t then stripTag ts cs else none

/-- One iteration of the `for part in reply[3..].split(';')` loop of
`parse_stop_reply`: update `(thread_id, reason)` from one fragment. -/
def stopFieldStep (acc : Option Nat × StopReason) (part : List Char) :
    Option Nat × StopReason :=
  match stripTag ("thread:".data) part with
  | some rest =>
    match from_str_radix 64 rest with
    | some id => (some id, acc.2)
    | none => acc
  | none =>
    match stripTag ("reason:".data) part with
    | some rest =>
      (acc.1,
        if rest = "breakpoint".data then StopReason.breakpoint
        else if rest = "single-step".data then StopReason.step
        else StopReason.unknown (String.mk rest))
    | none => acc

def stopFields (parts : List (List Char)) : Option Nat × StopReason :=
  parts.foldl stopFieldStep (none, StopReason.unknown "signal")

/-- `parse_stop_reply` from `gdb_remote.rs`.  The outer `Option` is the
panic monad: `none` means the Rust function panics (out-of-bounds or
non-boundary byte slice `&reply[1..3]` / `&reply[3..]`); `some r` means
it returns `r`. -/
def parse_stop_reply (reply : List Char) : Option (Option StopReply) :=
  if reply = [] then some none
  else if reply.head? = some 'S' ∧ 3 ≤ utf8Len reply then
    match splitAtByte reply 1 with
    | none => none
    | some (_, suf) =>
      match splitAtByte suf 2 with
      | none => none
      | some (two, _) =>
        match from_str_radix 8 two with
        | none => some none
        | some sig => some (some ⟨sig, none, StopReason.signal⟩)
  else if reply.head? = some 'T' then
    match splitAtByte reply 1 with
    | none => none
    | some (_, suf) =>
      match splitAtByte suf 2 with
      | none => none
      | some (two, rest) =>
        match from_str_radix 8 two with
        | none => some none
        | some sig =>
          let fields := stopFields (splitSemi rest)
          some (some ⟨sig, fields.1, fields.2⟩)
  else some none

/-- `GdbRemoteClient::wait_for_stop` over the stream of packet bodies the
peer will deliver: keep reading until `parse_stop_reply` yields `Some`.
Outer `none` marks a panic inside `parse_stop_reply`; `some none` marks
a stream that ends without a stop reply (the Rust loop would then fail
with an I/O error). -/
def wait_for_stop : List (List Char) → Option (Option StopReply)
  | [] => some none
  | p :: rest =>
    match parse_stop_reply p with
    | none => none
    | some none => wait_for_stop rest
    | some (some r) => some (some r)

example : parse_stop_reply "S05".data = some (some ⟨5, none, StopReason.signal⟩) := by decide
example : parse_stop_reply "T0".data = none := by decide
example : parse_stop_reply "T05thread:1;reason:breakpoint;".data
    = some (some ⟨5, some 1, StopReason.breakpoint⟩) := by decide
example : parse_stop_reply "S+5".data = some (some ⟨5, none, StopReason.signal⟩) := by decide
example : parse_stop_reply "T05".data
    = some (some ⟨5, none, StopReason.unknown "signal"⟩) := by decide

/-! ## `gdb_remote.rs`: RSP framing

Packets are byte strings; we work on `List Nat` (the UTF-8 bytes of the
Rust strings, each `< 256`). -/

/-- One step of the `payload.bytes().fold(0u8, wrapping_add)` checksum. -/
def wrapAdd8 (a b : Nat) : Nat := (a + b) % 256

def checksum_fold (p : List Nat) : Nat := p.foldl wrapAdd8 0

/-- Byte of the lower-case hex digit for `n < 16` (as printed by
`format!("{:02x}", checksum)`). -/
def hexDigitLower (n : Nat) : Nat := if n < 10 then 48 + n else 87 + n

/-- The frame built by `GdbRemoteClient::send_packet`:
`'$' payload '#' hh` with `hh` the two lower-case hex digits of the
wrapping byte sum of the payload. -/
def encode_packet (p : List Nat) : List Nat :=
  36 :: p ++ [35, hexDigitLower (checksum_fold p / 16), hexDigitLower (checksum_fold p % 16)]

/-- The skip-until-`'$'` loop of `read_packet` (every non-`'$'` byte is
discarded); `none` when the stream ends first. -/
def dropUntilDollar : List Nat → Option (List Nat)
  | [] => none
  | b :: rest => if b = 36 then some rest else dropUntilDollar rest

/-- The accumulate-until-`'#'` loop of `read_packet`. -/
def takeUntilHash : List Nat → Option (List Nat × List Nat)
  | [] => none
  | b :: rest =>
    if b = 35 then some ([], rest)
    else (takeUntilHash rest).map (fun p => (b :: p.1, p.2))

def hexValB? (b : Nat) : Option Nat :=
  if 48 ≤ b ∧ b ≤ 57 then some (b - 48)
  else if 97 ≤ b ∧ b ≤ 102 then some (b - 87)
  else if 65 ≤ b ∧ b ≤ 70 then some (b - 55)
  else none

/-- `u8::from_str_radix` on a two-character ASCII string (an optional
leading `'+'` is accepted by Rust; two hex digits never overflow `u8`). -/
def parse2HexU8 (c1 c2 : Nat) : Option Nat :=
  if c1 = 43 then hexValB? c2
  else
    match hexValB? c1, hexValB? c2 with
    | some d1, some d2 => some (16 * d1 + d2)
    | _, _ => none

/-- The checksum-byte decoding of `read_packet`:
`u8::from_str_radix(str::from_utf8(&bytes).unwrap_or("00"), 16)`.
Two bytes are valid UTF-8 iff both are ASCII or they form one two-byte
sequence; in the latter case the single non-ASCII character is not a hex
digit, and invalid UTF-8 falls back to `"00"` which parses to `0`. -/
def checksum_from_bytes (c1 c2 : Nat) : Option Nat :=
  if c1 < 128 ∧ c2 < 128 then parse2HexU8 c1 c2
  else if 194 ≤ c1 ∧ c1 ≤ 223 ∧ 128 ≤ c2 ∧ c2 ≤ 191 then none
  else some 0

/-- `GdbRemoteClient::read_packet` over the incoming byte stream: skip to
`'$'`, take the payload up to `'#'`, read two checksum bytes and verify
them.  `none` covers every failing outcome (stream end, undecodable or
mismatched checksum); `some data` is the returned payload (the Rust code
applies `String::from_utf8_lossy`, the identity on valid UTF-8). -/
def read_packet (input : List Nat) : Option (List Nat) :=
  match dropUntilDollar input with
  | none => none
  | some rest =>
    match takeUntilHash rest with
    | none => none
    | some (data, rest2) =>
      match rest2 with
      | c1 :: c2 :: _ =>
        match checksum_from_bytes c1 c2 with
        | none => none
        | some sent => if sent = checksum_fold data then some data else none
      | _ => none

def strBytes (s : String) : List Nat := s.data.map Char.toNat

example : encode_packet (strBytes "Z0,1000,1") = strBytes "$Z0,1000,1#d4" := by decide
example : read_packet (encode_packet (strBytes "Z0,1000,1")) = some (strBytes "Z0,1000,1") := by
  decide
example : read_packet (encode_packet [35]) = none := by decide

/-! ## `symbols.rs`: images and address translation -/

/-- A symbolized frame as exposed by the addr2line loader: optional
function symbol (demangled and raw readings) and optional location. -/
structure SymFrameFunction where
  demangled : Option String
  raw : Option String

structure SymFrameLocation where
  file : Option String
  line : Option Nat

structure SymFrame where
  function : Option SymFrameFunction
  location : Option SymFrameLocation

/-- `Image` from `symbols.rs`.  The opaque addr2line `Loader` is
modelled by the oracle `dwarf`, giving for every probed local PC the
result of `find_frames` (error message or frame list). -/
structure Image where
  name : String
  path : String
  uuid : Option (List Nat)
  vmaddr_text : Nat
  slide : Int
  dwarf : Nat → Except String (List SymFrame)

structure SymbolContext where
  main : Image

/-- `u64::wrapping_add`. -/
def wrapAdd64 (x y : Nat) : Nat := (x + y) % 2 ^ 64

/-- `u64::wrapping_sub` (for `y < 2^64`). -/
def wrapSub64 (x y : Nat) : Nat := (x + (2 ^ 64 - y % 2 ^ 64)) % 2 ^ 64

/-- The `as u64` cast of a signed value (two's complement). -/
def toU64 (s : Int) : Nat := (s % (2 ^ 64 : Int)).toNat

/-- `SymbolContext::translate_remote_pc`. -/
def translate_remote_pc (ctx : SymbolContext) (remote_pc : Nat) : Nat :=
  if 0 ≤ ctx.main.slide then wrapSub64 remote_pc ctx.main.slide.toNat
  else wrapAdd64 remote_pc (-ctx.main.slide).toNat

/-- `SymbolContext::local_to_remote`. -/
def local_to_remote (ctx : SymbolContext) (local_pc : Nat) : Nat :=
  if 0 ≤ ctx.main.slide then wrapAdd64 local_pc ctx.main.slide.toNat
  else wrapSub64 local_pc (-ctx.main.slide).toNat

/-- `SymbolContext::symbolize_frames`: probe the DWARF loader at the
slide-corrected PC. -/
def symbolize_frames (ctx : SymbolContext) (remote_pc : Nat) : Except String (List SymFrame) :=
  ctx.main.dwarf (translate_remote_pc ctx remote_pc)

/-- A context with the given slide (the other image fields do not affect
address translation). -/
def ctxWithSlide (slide : Int) : SymbolContext :=
  ⟨⟨"app", "/tmp/app", none, 0, slide, fun _ => Except.ok []⟩⟩

/-- `a + s` wrapped to 64 bits, with a signed `s`. -/
def addSlide (a : Nat) (s : Int) : Nat := (((a : Int) + s) % (2 ^ 64 : Int)).toNat

/-! ## `backend.rs`: DWARF line index -/

structure FileLine where
  file : String
  line : Nat
deriving DecidableEq, Repr

structure AddressRange where
  low : Nat
  high : Nat
deriving DecidableEq, Repr

/-- `std::path::Path::file_name` on a Unix path: the last component after
dropping empty and `.` components, unless it is `..`. -/
def rust_file_name (s : String) : Option String :=
  match ((s.splitOn "/").filter (fun c => ¬(c = "" ∨ c = "."))).getLast? with
  | none => none
  | some last => if last = ".." then none else some last

/-- `LineIndex::insert_range`: the key/range pairs one call pushes into
the map — the full path, and additionally the basename when it differs. -/
def insert_range (fl : FileLine) (range : AddressRange) : List (FileLine × AddressRange) :=
  (fl, range) ::
    (match rust_file_name fl.file with
     | some name => if name ≠ fl.file then [(⟨name, fl.line⟩, range)] else []
     | none => [])

/-- One row delivered by the gimli line-program iterator, carrying what
`consume_line_program` reads from it: the `end_sequence` flag, the
address, and (for normal rows) the result of `line_file_path` and
`row.line()`. -/
inductive LineRow where
  | endSeq (address : Nat)
  | row (address : Nat) (filePath : Option String) (line : Option Nat)

/-- The row loop of `LineIndex::consume_line_program`, carrying the
`previous : Option (FileLine, start)` tentative range and returning
every key/range pair inserted into the map. -/
def consumeRows : List LineRow → Option (FileLine × Nat) → List (FileLine × AddressRange)
  | [], _ => []
  | LineRow.endSeq endAddr :: rest, previous =>
    (match previous with
     | some (fl, start) =>
       if start < endAddr then insert_range fl ⟨start, endAddr⟩ else []
     | none => []) ++ consumeRows rest none
  | LineRow.row address filePath line :: rest, previous =>
    (match previous with
     | some (fl, start) =>
       if start ≤ address then insert_range fl ⟨start, address⟩ else []
     | none => []) ++
      consumeRows rest (some (⟨filePath.getD "<unknown>", line.getD 0⟩, address))

/-- `LineIndex::consume_line_program`: all key/range pairs inserted while
consuming one line program. -/
def consume_line_program (rows : List LineRow) : List (FileLine × AddressRange) :=
  consumeRows rows none

/-- The `HashMap<FileLine, Vec<AddressRange>>` of `LineIndex`, as an
association list with at most one entry per key. -/
structure LineIndex where
  map : List (FileLine × List AddressRange)

def mapGet (m : List (FileLine × List AddressRange)) (key : FileLine) :
    Option (List AddressRange) :=
  (m.find? (fun e => e.1 = key)).map (fun e => e.2)

/-- `LineIndex::lookup`: exact key first, then — only when that gave no
results — the basename key when it differs from the full path. -/
def LineIndex.lookup (idx : LineIndex) (file : String) (line : Nat) : List AddressRange :=
  let results := (mapGet idx.map ⟨file, line⟩).getD []
  if results = [] then
    match rust_file_name file with
    | some name =>
      if name ≠ file then (mapGet idx.map ⟨name, line⟩).getD [] else []
    | none => []
  else results

/-! ## `backend.rs`: the backend

The RSP client held by the backend is reduced to the oracles for the
outcomes of its wire operations; `stops` is the stream of packet bodies
consumed by `wait_for_stop`. -/

structure GdbRemoteClient where
  port : Nat
  no_ack_mode : Bool
  set_bp : Nat → Except String Unit
  continue_all : Except String Unit
  step_thread : Except String Unit
  stops : Except String StopReply

structure BackendStopEvent where
  reason : String
  description : String
  thread_id : Int
deriving DecidableEq, Repr

/-- The `as i64` cast of a `u64` value (two's complement). -/
def i64ofU64 (n : Nat) : Int := if n < 2 ^ 63 then (n : Int) else (n : Int) - 2 ^ 64

/-- `BackendStopEvent::from_reply`. -/
def BackendStopEvent.from_reply (reply : StopReply) : BackendStopEvent :=
  let tid := i64ofU64 (reply.thread_id.getD 1)
  match reply.reason with
  | StopReason.breakpoint => ⟨"breakpoint", "Breakpoint hit", tid⟩
  | StopReason.step => ⟨"step", "Step completed", tid⟩
  | StopReason.signal => ⟨"signal", "Signal " ++ toString reply.signal, tid⟩
  | StopReason.unknown text => ⟨"stopped", text, tid⟩

/-- `Backend` from `backend.rs`.  `build_line_index` is the oracle for
`LineIndex::from_binary(&main.path)` used by `ensure_line_index`;
`gdb_connect` is the oracle for `GdbRemoteClient::connect(port)`. -/
structure Backend where
  symbol_ctx : SymbolContext
  connected_port : Option Nat
  breakpoints : List (String × List Int)
  frame_provider : Option (Int → List (Int × Nat))
  line_index : Option LineIndex
  gdb_client : Option GdbRemoteClient
  build_line_index : Except String LineIndex
  gdb_connect : Nat → Except String GdbRemoteClient

/-- `HashMap::insert` on the breakpoint table. -/
def insertBreakpoints (m : List (String × List Int)) (key : String) (value : List Int) :
    List (String × List Int) :=
  (key, value) :: m.filter (fun e => ¬ e.1 = key)

/-- `Backend::connect_debugserver`. -/
def Backend.connect_debugserver (b : Backend) (port : Nat) : Backend × Except String Unit :=
  match b.gdb_connect port with
  | Except.ok client =>
    ({ b with connected_port := some port, gdb_client := some client }, Except.ok ())
  | Except.error err =>
    (b, Except.error
      ("failed to connect to debugserver on port " ++ toString port ++ ": " ++ err))

/-- `Backend::ensure_line_index`. -/
def Backend.ensure_line_index (b : Backend) : Backend × Except String Unit :=
  match b.line_index with
  | some _ => (b, Except.ok ())
  | none =>
    match b.build_line_index with
    | Except.ok idx => ({ b with line_index := some idx }, Except.ok ())
    | Except.error err =>
      (b, Except.error
        ("Failed to build DWARF line index for " ++ b.symbol_ctx.main.path ++ ": " ++ err))

/-- The `for range in ranges` body of `update_breakpoints`: plant a
software breakpoint at `local_to_remote(range.low)` when a client
exists, else log and skip. -/
def plantRanges (b : Backend) : List AddressRange → Except String Unit
  | [] => Except.ok ()
  | range :: rest =>
    match b.gdb_client with
    | some client =>
      match client.set_bp (local_to_remote b.symbol_ctx range.low) with
      | Except.error err => Except.error ("failed to plant breakpoint: " ++ err)
      | Except.ok _ => plantRanges b rest
    | none => plantRanges b rest

/-- The `for line in lines` loop of `update_breakpoints`. -/
def processLines (b : Backend) (idx : LineIndex) (canonical : String) :
    List Int → Except String Unit
  | [] => Except.ok ()
  | line :: rest =>
    if line ≤ 0 then processLines b idx canonical rest
    else
      let ranges := idx.lookup canonical line.toNat
      if ranges = [] then processLines b idx canonical rest
      else
        match plantRanges b ranges with
        | Except.error err => Except.error err
        | Except.ok _ => processLines b idx canonical rest

/-- `Backend::update_breakpoints` (`Path::to_string_lossy` of a valid
Rust `String` path is the path itself). -/
def Backend.update_breakpoints (b : Backend) (source_path : String) (lines : List Int) :
    Backend × Except String Unit :=
  let b := { b with breakpoints := insertBreakpoints b.breakpoints source_path lines }
  match b.ensure_line_index with
  | (b, Except.error err) => (b, Except.error err)
  | (b, Except.ok _) =>
    match b.line_index with
    | none => (b, Except.ok ())
    | some idx => (b, processLines b idx source_path lines)

/-- `i64` wrap-around of an integer (release-mode Rust arithmetic). -/
def wrapI64 (x : Int) : Int := (x + 2 ^ 63) % 2 ^ 64 - 2 ^ 63

/-- `Backend::backend_fetch_frames`: the installed frame provider, or a
default single frame at `vmaddr_text + slide as u64` with id
`thread_id * 100 + 1`. -/
def backend_fetch_frames (b : Backend) (thread_id : Int) : List (Int × Nat) :=
  match b.frame_provider with
  | some provider => provider thread_id
  | none =>
    [(wrapI64 (thread_id * 100 + 1),
      wrapAdd64 b.symbol_ctx.main.vmaddr_text (toU64 b.symbol_ctx.main.slide))]

/-- One stack frame of the JSON array built by `Backend::stack_trace`. -/
structure FrameJson where
  id : Int
  name : String
  line : Int
  column : Int
  sourceName : String
  sourcePath : String
  presentationHint : String
deriving DecidableEq, Repr

/-- `file_path.rsplit(['/', '\\']).next()`: the last segment of the path
after splitting on `/` or `\` (always defined, so the `unwrap_or` of the
source is never taken). -/
def rsplitLastSeg (s : String) : String :=
  String.mk (s.data.foldl (fun acc c => if c = '/' ∨ c = '\\' then [] else acc ++ [c]) [])

/-- The per-frame body of `Backend::stack_trace`. -/
def renderFrame (b : Backend) (idx : Nat) (frame_id : Int) (pc : Nat) : FrameJson :=
  let frames := (symbolize_frames b.symbol_ctx pc).toOption
  let top := frames.bind List.head?
  let function_name :=
    ((top.bind (fun f => f.function)).bind
      (fun n => (n.demangled).orElse (fun _ => n.raw))).getD "<unknown>"
  let location := top.bind (fun f => f.location)
  let file_path := (location.bind (fun l => l.file)).getD "<unknown>"
  let line := ((location.bind (fun l => l.line)).map i64ofU64).getD 0
  ⟨frame_id, function_name, line, 1, rsplitLastSeg file_path, file_path,
    if idx = 0 then "normal" else "subtle"⟩

/-- `Backend::stack_trace`. -/
def Backend.stack_trace (b : Backend) (thread_id : Int) : List FrameJson :=
  (backend_fetch_frames b thread_id).enum.map (fun e => renderFrame b e.1 e.2.1 e.2.2)

/-- `Backend::threads`: one synthetic thread. -/
def Backend.threads (b : Backend) : List (Int × String) :=
  [(1, "Stub Thread" ++ ((b.connected_port.map
      (fun port => " (" ++ toString port ++ ")")).getD ""))]

/-- `Backend::variables`: the two placeholder entries
`(name, value, type, variablesReference)`. -/
def Backend.variables (variables_reference : Int) : List (String × String × String × Int) :=
  [("var", "value-" ++ toString variables_reference, "string", 0),
   ("counter", "123", "int", 0)]

/-- `Backend::ensure_gdb` followed by `continue_all` and
`wait_for_stop`, as performed by `Backend::continue`. -/
def Backend.continue' (b : Backend) : Except String (Option BackendStopEvent) :=
  match b.gdb_client with
  | none => Except.error "no gdb-remote connection; call connect_debugserver first"
  | some client =>
    match client.continue_all with
    | Except.error err => Except.error err
    | Except.ok _ =>
      match client.stops with
      | Except.error err => Except.error err
      | Except.ok reply => Except.ok (some (BackendStopEvent.from_reply reply))

/-- `Backend::step_over` (and `Backend::step_in`, its alias). -/
def Backend.step_over (b : Backend) : Except String (Option BackendStopEvent) :=
  match b.gdb_client with
  | none => Except.error "no gdb-remote connection; call connect_debugserver first"
  | some client =>
    match client.step_thread with
    | Except.error err => Except.error err
    | Except.ok _ =>
      match client.stops with
      | Except.error err => Except.error err
      | Except.ok reply => Except.ok (some (BackendStopEvent.from_reply reply))

/-- `Backend::disconnect`. -/
def Backend.disconnect (b : Backend) : Backend × Except String Unit :=
  ({ b with connected_port := none, gdb_client := none }, Except.ok ())

/-! ## `main.rs`: the DAP session

Outbound JSON bodies are embedded structurally, one constructor per
`json!` shape the session builds. -/

structure LaunchArguments where
  debugserver_port : Nat
  program : String
  cwd : Option String

structure AttachArguments where
  debugserver_port : Nat
  program : Option String
  cwd : Option String

structure Source where
  path : Option String

structure SourceBreakpoint where
  line : Int

structure SetBreakpointsArguments where
  source : Source
  breakpoints : List SourceBreakpoint

structure StackTraceArguments where
  thread_id : Int

structure VariablesArguments where
  variables_reference : Int

structure ThreadArguments where
  thread_id : Int

/-- A serde `Value` in argument position, abstracted by the outcome of
`parse_arguments::<T>` for each argument type the session decodes. -/
structure ArgumentsValue where
  as_launch : Except String LaunchArguments
  as_attach : Except String AttachArguments
  as_set_breakpoints : Except String SetBreakpointsArguments
  as_stack_trace : Except String StackTraceArguments
  as_scopes : Except String Unit
  as_variables : Except String VariablesArguments
  as_thread : Except String ThreadArguments

structure RawRequest where
  seq : Int
  command : String
  arguments : ArgumentsValue

inductive DapBody where
  | initializeCaps
  | launchBody (program : String) (cwd : Option String) (debugserverPort : Nat)
  | attachBody (program : Option String) (cwd : Option String) (debugserverPort : Nat)
  | breakpointsBody (breakpoints : List (Bool × Int))
  | threadsBody (threads : List (Int × String))
  | stackTraceBody (stackFrames : List FrameJson) (totalFrames : Int)
  | scopesBody
  | variablesBody (vars : List (String × String × String × Int))
  | continueBody
  | stoppedBody (reason : String) (description : String) (threadId : Int)
deriving DecidableEq

inductive MsgKind where
  | response (request_seq : Int) (success : Bool) (command : String) (message : Option String)
  | event (name : String)
deriving DecidableEq

/-- One outbound DAP message (a serialized `Response` or `Event`). -/
structure DapMessage where
  seq : Int
  kind : MsgKind
  body : Option DapBody
deriving DecidableEq

structure Session where
  next_seq : Int
  initialized : Bool
  backend : Backend

/-- `Session::new`. -/
def Session.new (backend : Backend) : Session := ⟨1, false, backend⟩

/-- `Session::respond` (which draws `seq` from `Session::next_seq`). -/
def Session.respond (s : Session) (request_seq : Int) (command : String) (success : Bool)
    (body : Option DapBody) (message : Option String) : Session × DapMessage :=
  ({ s with next_seq := s.next_seq + 1 },
    ⟨s.next_seq, MsgKind.response request_seq success command message, body⟩)

/-- `Session::send_error_response`. -/
def Session.send_error_response (s : Session) (request_seq : Int) (command : String)
    (message : String) : Session × DapMessage :=
  s.respond request_seq command false none (some message)

/-- `Session::emit_event`. -/
def Session.emit_event (s : Session) (name : String) (body : Option DapBody) :
    Session × DapMessage :=
  ({ s with next_seq := s.next_seq + 1 }, ⟨s.next_seq, MsgKind.event name, body⟩)

/-- The result of one `Session::handle_*` method: the new session, the
messages it wrote in order, and the `Ok(bool)` telling the main loop
whether to continue. -/
def HandlerOut : Type := Session × List DapMessage × Bool

/-- `Session::handle_simple_ok` (a `Value::Null` body is sent as no
body, so callers pass `none` for `Value::Null`). -/
def handle_simple_ok (s : Session) (seq : Int) (command : String) (body : Option DapBody) :
    HandlerOut :=
  let r := s.respond seq command true body none
  (r.1, [r.2], true)

/-- `Session::handle_initialize`. -/
def handle_initialize_req (s : Session) (seq : Int) (command : String) : HandlerOut :=
  let s := { s with initialized := true }
  let r1 := s.respond seq command true (some DapBody.initializeCaps) none
  let r2 := r1.1.emit_event "initialized" none
  (r2.1, [r1.2, r2.2], true)

/-- `Session::handle_launch`. -/
def handle_launch (s : Session) (seq : Int) (command : String) (arguments : ArgumentsValue) :
    HandlerOut :=
  match arguments.as_launch with
  | Except.error err =>
    let r := s.send_error_response seq command err
    (r.1, [r.2], true)
  | Except.ok args =>
    match s.backend.connect_debugserver args.debugserver_port with
    | (b, Except.error err) =>
      let r := { s with backend := b }.send_error_response seq command err
      (r.1, [r.2], true)
    | (b, Except.ok _) =>
      handle_simple_ok { s with backend := b } seq command
        (some (DapBody.launchBody args.program args.cwd args.debugserver_port))

/-- `Session::handle_attach`. -/
def handle_attach (s : Session) (seq : Int) (command : String) (arguments : ArgumentsValue) :
    HandlerOut :=
  match arguments.as_attach with
  | Except.error err =>
    let r := s.send_error_response seq command err
    (r.1, [r.2], true)
  | Except.ok args =>
    match s.backend.connect_debugserver args.debugserver_port with
    | (b, Except.error err) =>
      let r := { s with backend := b }.send_error_response seq command err
      (r.1, [r.2], true)
    | (b, Except.ok _) =>
      handle_simple_ok { s with backend := b } seq command
        (some (DapBody.attachBody args.program args.cwd args.debugserver_port))

/-- `Session::handle_set_breakpoints`. -/
def handle_set_breakpoints (s : Session) (seq : Int) (command : String)
    (arguments : ArgumentsValue) : HandlerOut :=
  match arguments.as_set_breakpoints with
  | Except.error err =>
    let r := s.send_error_response seq command err
    (r.1, [r.2], true)
  | Except.ok args =>
    match args.source.path with
    | none =>
      let r := s.send_error_response seq command "source.path missing"
      (r.1, [r.2], true)
    | some path =>
      let lines := args.breakpoints.map (fun bp => bp.line)
      match s.backend.update_breakpoints path lines with
      | (b, Except.error err) =>
        let r := { s with backend := b }.send_error_response seq command err
        (r.1, [r.2], true)
      | (b, Except.ok _) =>
        handle_simple_ok { s with backend := b } seq command
          (some (DapBody.breakpointsBody (args.breakpoints.map (fun bp => (true, bp.line)))))

/-- `Session::handle_threads`. -/
def handle_threads (s : Session) (seq : Int) (command : String) : HandlerOut :=
  handle_simple_ok s seq command (some (DapBody.threadsBody s.backend.threads))

/-- `Session::handle_stack_trace` (`totalFrames` is the literal `2`). -/
def handle_stack_trace (s : Session) (seq : Int) (command : String)
    (arguments : ArgumentsValue) : HandlerOut :=
  match arguments.as_stack_trace with
  | Except.error err =>
    let r := s.send_error_response seq command err
    (r.1, [r.2], true)
  | Except.ok args =>
    handle_simple_ok s seq command
      (some (DapBody.stackTraceBody (s.backend.stack_trace args.thread_id) 2))

/-- `Session::handle_scopes`. -/
def handle_scopes (s : Session) (seq : Int) (command : String) (arguments : ArgumentsValue) :
    HandlerOut :=
  match arguments.as_scopes with
  | Except.error err =>
    let r := s.send_error_response seq command err
    (r.1, [r.2], true)
  | Except.ok _ => handle_simple_ok s seq command (some DapBody.scopesBody)

/-- `Session::handle_variables`. -/
def handle_variables (s : Session) (seq : Int) (command : String) (arguments : ArgumentsValue) :
    HandlerOut :=
  match arguments.as_variables with
  | Except.error err =>
    let r := s.send_error_response seq command err
    (r.1, [r.2], true)
  | Except.ok args =>
    handle_simple_ok s seq command
      (some (DapBody.variablesBody (Backend.variables args.variables_reference)))

/-- `Session::emit_stop_event`. -/
def emit_stop_event (s : Session) (event : BackendStopEvent) : Session × DapMessage :=
  s.emit_event "stopped"
    (some (DapBody.stoppedBody event.reason event.description event.thread_id))

/-- `Session::handle_continue`. -/
def handle_continue (s : Session) (seq : Int) (command : String) (arguments : ArgumentsValue) :
    HandlerOut :=
  match arguments.as_thread with
  | Except.error err =>
    let r := s.send_error_response seq command err
    (r.1, [r.2], true)
  | Except.ok _ =>
    match s.backend.continue' with
    | Except.error err =>
      let r := s.send_error_response seq command err
      (r.1, [r.2], true)
    | Except.ok stop_event =>
      let ok := handle_simple_ok s seq command (some DapBody.continueBody)
      match stop_event with
      | some event =>
        let r := emit_stop_event ok.1 event
        (r.1, ok.2.1 ++ [r.2], true)
      | none => (ok.1, ok.2.1, true)

/-- `Session::handle_next`. -/
def handle_next (s : Session) (seq : Int) (command : String) (arguments : ArgumentsValue) :
    HandlerOut :=
  match arguments.as_thread with
  | Except.error err =>
    let r := s.send_error_response seq command err
    (r.1, [r.2], true)
  | Except.ok _ =>
    match s.backend.step_over with
    | Except.error err =>
      let r := s.send_error_response seq command err
      (r.1, [r.2], true)
    | Except.ok stop_event =>
      let ok := handle_simple_ok s seq command none
      match stop_event with
      | some event =>
        let r := emit_stop_event ok.1 event
        (r.1, ok.2.1 ++ [r.2], true)
      | none => (ok.1, ok.2.1, true)

/-- `Session::handle_step_in` (`Backend::step_in` aliases
`Backend::step_over`). -/
def handle_step_in (s : Session) (seq : Int) (command : String) (arguments : ArgumentsValue) :
    HandlerOut :=
  handle_next s seq command arguments

/-- `Session::handle_disconnect` (returns `Ok(false)`: the main loop
terminates). -/
def handle_disconnect (s : Session) (seq : Int) (command : String) : HandlerOut :=
  match s.backend.disconnect with
  | (b, Except.error err) =>
    let r := { s with backend := b }.send_error_response seq command err
    (r.1, [r.2], true)
  | (b, Except.ok _) =>
    let ok := handle_simple_ok { s with backend := b } seq command none
    (ok.1, ok.2.1, false)

/-- `Session::handle_request`: the command dispatch. -/
def handle_request (s : Session) (request : RawRequest) : HandlerOut :=
  match request.command with
  | "initialize" => handle_initialize_req s request.seq request.command
  | "launch" => handle_launch s request.seq request.command request.arguments
  | "attach" => handle_attach s request.seq request.command request.arguments
  | "setBreakpoints" => handle_set_breakpoints s request.seq request.command request.arguments
  | "configurationDone" => handle_simple_ok s request.seq request.command none
  | "threads" => handle_threads s request.seq request.command
  | "stackTrace" => handle_stack_trace s request.seq request.command request.arguments
  | "scopes" => handle_scopes s request.seq request.command request.arguments
  | "variables" => handle_variables s request.seq request.command request.arguments
  | "continue" => handle_continue s request.seq request.command request.arguments
  | "next" => handle_next s request.seq request.command request.arguments
  | "stepIn" => handle_step_in s request.seq request.command request.arguments
  | "disconnect" => handle_disconnect s request.seq request.command
  | _ =>
    let r := s.send_error_response request.seq request.command
      ("Unknown command: " ++ request.command)
    (r.1, [r.2], true)

def knownCommands : List String :=
  ["initialize", "launch", "attach", "setBreakpoints", "configurationDone", "threads",
   "stackTrace", "scopes", "variables", "continue", "next", "stepIn", "disconnect"]

/-- The `while let Some(message) = read_dap_message(...)` loop of `main`,
restricted to the decoded requests it dispatches: run the handlers until
one returns `false` or the input ends, collecting all outbound
messages. -/
def run_session : Session → List RawRequest → Session × List DapMessage
  | s, [] => (s, [])
  | s, request :: rest =>
    match handle_request s request with
    | (s', msgs, true) =>
      let r := run_session s' rest
      (r.1, msgs ++ r.2)
    | (s', msgs, false) => (s', msgs)

/-- `[start, start + 1, ..., start + n - 1]` over `Int`. -/
def intRange (start : Int) (n : Nat) : List Int :=
  (List.range n).map (fun (i : Nat) => start + (i : Int))

/-- The sequence-numbering contract of one handler run started at
counter value `k`: the messages it writes carry the consecutive seq
values `k, k+1, ...`, and the counter advances by their number. -/
def HandlerSeqs (out : HandlerOut) (k : Int) : Prop :=
  out.2.1.map DapMessage.seq = intRange k out.2.1.length ∧
    out.1.next_seq = k + out.2.1.length

/-! ## Concrete instances used by the witnesses -/

/-- An arguments value on which every `parse_arguments` call fails. -/
def failArguments : ArgumentsValue :=
  ⟨Except.error "invalid arguments", Except.error "invalid arguments",
    Except.error "invalid arguments", Except.error "invalid arguments",
    Except.error "invalid arguments", Except.error "invalid arguments",
    Except.error "invalid arguments"⟩

/-- An arguments value decoding to a `setBreakpoints` request for
`/tmp/foo.rs` line 42. -/
def fooSetBpArguments : ArgumentsValue :=
  { failArguments with
      as_set_breakpoints := Except.ok ⟨⟨some "/tmp/foo.rs"⟩, [⟨42⟩]⟩ }

/-- A line index holding `(/tmp/foo.rs, 42) → [0x1000, 0x1004)`. -/
def fooLineIndex : LineIndex := ⟨[(⟨"/tmp/foo.rs", 42⟩, [⟨4096, 4100⟩])]⟩

def sampleImage : Image :=
  ⟨"app", "/tmp/app", none, 4096, 8192, fun _ => Except.ok []⟩

/-- A backend with no RSP connection and a preloaded line index. -/
def sampleBackend : Backend :=
  ⟨⟨sampleImage⟩, none, [], none, some fooLineIndex, none, Except.ok fooLineIndex,
    fun _ => Except.error "connection refused"⟩

/-- The backend of scenario S6: a frame provider yielding
`(7, 0xDEADBEEF)` and a DWARF loader that resolves no frames. -/
def deadbeefBackend : Backend :=
  { sampleBackend with frame_provider := some (fun _ => [(7, 0xDEADBEEF)]) }

/-! # Theorems -/

/-! ## C1 / C4 / C10: `parse_stop_reply` -/

/-- C1.  The claim states that `parse_stop_reply` returns an `Option`
without panicking on every packet body, including bodies beginning with
`'S'` or `'T'` shorter than 3 characters.  The `'S'` arm is guarded by
`reply.len() >= 3`, but the `'T'` arm slices `&reply[1..3]` with no
length guard: on the bodies `"T0"` and `"T"` the Rust function panics
with a byte-index-out-of-bounds (modelled by the outer `none`), while
the guarded `'S'` bodies of the same shape return `None` as claimed. -/
theorem parse_stop_reply_short_T_panics :
    parse_stop_reply "T0".data = none ∧ parse_stop_reply "T".data = none ∧
    parse_stop_reply "S0".data = some none ∧ parse_stop_reply "S".data = some none := by
  decide

/-- C4 counterexample.  `"T0"` matches neither stop-reply form, so the
claim says `parse_stop_reply` yields `None` on it; instead the code
panics (outer `none`), which is not the `None` return (`some none`). -/
theorem parse_stop_reply_T0_not_none : parse_stop_reply "T0".data ≠ some none := by
  decide

/-! ## C3: address translation -/

theorem translate_local_inverse (s : Int) (a : Nat) (h1 : -(2 ^ 63) ≤ s) (h2 : s < 2 ^ 63)
    (ha : a < 2 ^ 64) :
    translate_remote_pc (ctxWithSlide s) (local_to_remote (ctxWithSlide s) a) = a ∧
    local_to_remote (ctxWithSlide s) (translate_remote_pc (ctxWithSlide s) a) = a := by
  have hpow : (2 : Nat) ^ 64 = 18446744073709551616 := by norm_num
  by_cases hs : 0 ≤ s
  · have ht : s.toNat < 18446744073709551616 := by omega
    simp only [translate_remote_pc, local_to_remote, ctxWithSlide, wrapAdd64, wrapSub64,
      if_pos hs, hpow]
    omega
  · have ht : (-s).toNat < 18446744073709551616 := by omega
    simp only [translate_remote_pc, local_to_remote, ctxWithSlide, wrapAdd64, wrapSub64,
      if_neg hs, hpow]
    omega

theorem addSlide_lt (a : Nat) (s : Int) : addSlide a s < 2 ^ 64 := by
  simp only [addSlide]
  omega

/-- C3.  For every slide `s` in the `i64` range and every 64-bit address
`a`, `translate_remote_pc (local_to_remote a) = a` and
`local_to_remote (translate_remote_pc (a + s)) = a + s`, where the sum
`a + s` wraps modulo `2^64` (`addSlide`). -/
theorem slide_translation_inverse (s : Int) (a : Nat) (h1 : -(2 ^ 63) ≤ s)
    (h2 : s < 2 ^ 63) (ha : a < 2 ^ 64) :
    translate_remote_pc (ctxWithSlide s) (local_to_remote (ctxWithSlide s) a) = a ∧
    local_to_remote (ctxWithSlide s) (translate_remote_pc (ctxWithSlide s) (addSlide a s)) =
      addSlide a s := by
  refine ⟨(translate_local_inverse s a h1 h2 ha).1, ?_⟩
  exact (translate_local_inverse s (addSlide a s) h1 h2 (addSlide_lt a s)).2

theorem slide_translation_inverse_witness :
    (-(2 ^ 63) : Int) ≤ -4096 ∧ (-4096 : Int) < 2 ^ 63 ∧ (4096 : Nat) < 2 ^ 64 ∧
    (translate_remote_pc (ctxWithSlide (-4096)) (local_to_remote (ctxWithSlide (-4096)) 4096) =
        4096 ∧
      local_to_remote (ctxWithSlide (-4096))
          (translate_remote_pc (ctxWithSlide (-4096)) (addSlide 4096 (-4096))) =
        addSlide 4096 (-4096)) :=
  ⟨by norm_num, by norm_num, by norm_num,
    slide_translation_inverse (-4096) 4096 (by norm_num) (by norm_num) (by norm_num)⟩

/-! ## C2: line-index range invariant -/

theorem insert_range_snd (fl : FileLine) (range : AddressRange) (p : FileLine × AddressRange)
    (h : p ∈ insert_range fl range) : p.2 = range := by
  unfold insert_range at h
  rcases List.mem_cons.mp h with h1 | h2
  · rw [h1]
  · revert h2
    cases rust_file_name fl.file with
    | none => simp
    | some name =>
      by_cases hne : name ≠ fl.file
      · simp only [if_pos hne, List.mem_singleton]
        intro h2
        rw [h2]
      · simp [if_neg hne]

theorem consumeRows_ranges_le (rows : List LineRow) :
    ∀ (previous : Option (FileLine × Nat)) (p : FileLine × AddressRange),
      p ∈ consumeRows rows previous → p.2.low ≤ p.2.high := by
  induction rows with
  | nil => intro previous p hp; simp [consumeRows] at hp
  | cons head rest ih =>
    intro previous p hp
    cases head with
    | endSeq endAddr =>
      simp only [consumeRows, List.mem_append] at hp
      rcases hp with hp | hp
      · cases previous with
        | none => simp at hp
        | some pr =>
          obtain ⟨fl, start⟩ := pr
          dsimp only at hp
          by_cases hlt : start < endAddr
          · rw [if_pos hlt] at hp
            rw [insert_range_snd fl ⟨start, endAddr⟩ p hp]
            exact Nat.le_of_lt hlt
          · rw [if_neg hlt] at hp
            simp at hp
      · exact ih none p hp
    | row address filePath line =>
      simp only [consumeRows, List.mem_append] at hp
      rcases hp with hp | hp
      · cases previous with
        | none => simp at hp
        | some pr =>
          obtain ⟨fl, start⟩ := pr
          dsimp only at hp
          by_cases hle : start ≤ address
          · rw [if_pos hle] at hp
            rw [insert_range_snd fl ⟨start, address⟩ p hp]
            exact hle
          · rw [if_neg hle] at hp
            simp at hp
      · exact ih _ p hp

/-- C2 counterexample.  Two consecutive line-program rows at the same
address (legal DWARF: several rows may share an address) make the
`address >= start` arm of `consume_line_program` insert the empty range
`[5, 5)` — under the full key and it would also be under the basename —
so not every stored range has `low < high`. -/
theorem consume_line_program_empty_range :
    (⟨⟨"a.rs", 1⟩, ⟨5, 5⟩⟩ : FileLine × AddressRange) ∈
        consume_line_program
          [LineRow.row 5 (some "a.rs") (some 1), LineRow.row 5 (some "a.rs") (some 2),
            LineRow.endSeq 10] ∧
      ¬(5 : Nat) < 5 := by
  constructor
  · decide
  · decide

/-- C2 amended.  Every range inserted into the line-index map by
`consume_line_program` (under either key) satisfies `low ≤ high`: the
end-of-sequence arm inserts only strict ranges, but the row-to-row arm
fires already when the next address equals the pending start, so
equality can occur. -/
theorem consume_line_program_ranges_le (rows : List LineRow) (p : FileLine × AddressRange)
    (hp : p ∈ consume_line_program rows) : p.2.low ≤ p.2.high :=
  consumeRows_ranges_le rows none p hp

theorem consume_line_program_ranges_le_witness :
    (⟨⟨"a.rs", 1⟩, ⟨5, 9⟩⟩ : FileLine × AddressRange) ∈
        consume_line_program [LineRow.row 5 (some "a.rs") (some 1), LineRow.endSeq 9] ∧
      ((⟨⟨"a.rs", 1⟩, ⟨5, 9⟩⟩ : FileLine × AddressRange)).2.low ≤
        (⟨⟨"a.rs", 1⟩, ⟨5, 9⟩⟩ : FileLine × AddressRange).2.high :=
  ⟨by decide,
    consume_line_program_ranges_le [LineRow.row 5 (some "a.rs") (some 1), LineRow.endSeq 9]
      ⟨⟨"a.rs", 1⟩, ⟨5, 9⟩⟩ (by decide)⟩

/-! ## C5: RSP framing -/

theorem checksum_fold_eq_sum_aux (p : List Nat) :
    ∀ a : Nat, a < 256 → p.foldl wrapAdd8 a = (a + p.sum) % 256 := by
  induction p with
  | nil => intro a ha; simp [Nat.mod_eq_of_lt ha]
  | cons b rest ih =>
    intro a ha
    rw [List.foldl_cons, List.sum_cons]
    rw [ih (wrapAdd8 a b) (Nat.mod_lt _ (by norm_num))]
    simp only [wrapAdd8]
    omega

/-- The wrapping fold of `send_packet` computes the byte sum mod 256. -/
theorem checksum_fold_eq_sum (p : List Nat) : checksum_fold p = p.sum % 256 := by
  have := checksum_fold_eq_sum_aux p 0 (by norm_num)
  simpa [checksum_fold] using this

theorem takeUntilHash_append (p rest : List Nat) (h : 35 ∉ p) :
    takeUntilHash (p ++ 35 :: rest) = some (p, rest) := by
  induction p with
  | nil => simp [takeUntilHash]
  | cons b q ih =>
    have hb : b ≠ 35 := fun hb => h (hb ▸ List.mem_cons_self b q)
    have hq : 35 ∉ q := fun hq => h (List.mem_cons_of_mem b hq)
    rw [List.cons_append, takeUntilHash, if_neg hb, ih hq]
    rfl

theorem hexDigitLower_ascii : ∀ d : Nat, d < 16 →
    hexDigitLower d < 128 ∧ hexDigitLower d ≠ 43 ∧ hexValB? (hexDigitLower d) = some d := by
  decide

theorem read_packet_encode_packet (p : List Nat) (h : 35 ∉ p) :
    read_packet (encode_packet p) = some p := by
  have hcs : checksum_fold p < 256 := by
    rw [checksum_fold_eq_sum]; exact Nat.mod_lt _ (by norm_num)
  obtain ⟨ha1, hb1, hc1⟩ := hexDigitLower_ascii (checksum_fold p / 16) (by omega)
  obtain ⟨ha2, hb2, hc2⟩ := hexDigitLower_ascii (checksum_fold p % 16) (by omega)
  have hdm : 16 * (checksum_fold p / 16) + checksum_fold p % 16 = checksum_fold p := by
    omega
  have hcb : checksum_from_bytes (hexDigitLower (checksum_fold p / 16))
      (hexDigitLower (checksum_fold p % 16)) = some (checksum_fold p) := by
    rw [checksum_from_bytes, if_pos ⟨ha1, ha2⟩, parse2HexU8, if_neg hb1, hc1, hc2]
    dsimp only
    rw [hdm]
  rw [encode_packet, read_packet]
  simp only [dropUntilDollar, ite_true, List.append_eq]
  rw [takeUntilHash_append p
    [hexDigitLower (checksum_fold p / 16), hexDigitLower (checksum_fold p % 16)] h]
  dsimp only
  rw [hcb]
  dsimp only
  rw [if_pos rfl]

/-- C5 counterexample.  The claim quantifies over every payload, but the
implementation does not escape `'#'` (byte 35): for the one-byte payload
`"#"` the reader stops at the payload's own `'#'` and then fails the
checksum, so decoding the encoded frame does not recover the payload. -/
theorem rsp_round_trip_fails_on_hash :
    read_packet (encode_packet [35]) = none ∧ read_packet (encode_packet [35]) ≠ some [35] := by
  decide

/-- C5 amended.  For every payload: the frame is `'$' payload '#' hh`
with `hh` the two lower-case hex digits of the byte sum mod 256; and
when the payload contains no `'#'` byte (true of every payload this
client sends), decoding the encoded frame recovers the payload.  The
frame for `"Z0,1000,1"` is exactly `"$Z0,1000,1#d4"`. -/
theorem rsp_framing_round_trip :
    (∀ p : List Nat, encode_packet p =
      36 :: p ++ [35, hexDigitLower (p.sum % 256 / 16), hexDigitLower (p.sum % 256 % 16)]) ∧
    (∀ p : List Nat, 35 ∉ p → read_packet (encode_packet p) = some p) ∧
    encode_packet (strBytes "Z0,1000,1") = strBytes "$Z0,1000,1#d4" := by
  refine ⟨fun p => ?_, fun p h => read_packet_encode_packet p h, by decide⟩
  rw [encode_packet, checksum_fold_eq_sum]

theorem rsp_framing_round_trip_witness :
    35 ∉ strBytes "Z0,1000,1" ∧
      read_packet (encode_packet (strBytes "Z0,1000,1")) = some (strBytes "Z0,1000,1") :=
  ⟨by decide, rsp_framing_round_trip.2.1 (strBytes "Z0,1000,1") (by decide)⟩

/-! ## C4 / C10: stop-reply grammar lemmas -/

theorem hexVal?_bounds (c : Char) (d : Nat) (h : hexVal? c = some d) :
    d < 16 ∧ 48 ≤ c.toNat ∧ c.toNat ≤ 102 := by
  unfold hexVal? at h
  split_ifs at h with ha hb hc <;> simp only [Option.some.injEq] at h <;> omega

theorem hex_char_not_plus (c : Char) (h : 48 ≤ c.toNat) : c ≠ '+' := by
  intro he
  rw [he] at h
  simp at h

theorem charUtf8Size_ascii (c : Char) (h : c.toNat ≤ 127) : charUtf8Size c = 1 := by
  unfold charUtf8Size
  rw [if_pos (by omega)]

theorem hex_char_size (c : Char) (d : Nat) (h : hexVal? c = some d) : charUtf8Size c = 1 :=
  charUtf8Size_ascii c (by have := hexVal?_bounds c d h; omega)

theorem splitAtByte_one (c : Char) (s : List Char) (h : charUtf8Size c = 1) :
    splitAtByte (c :: s) 1 = some ([c], s) := by
  simp [splitAtByte, h]

theorem splitAtByte_two (c1 c2 : Char) (s : List Char) (h1 : charUtf8Size c1 = 1)
    (h2 : charUtf8Size c2 = 1) : splitAtByte (c1 :: c2 :: s) 2 = some ([c1, c2], s) := by
  simp [splitAtByte, h1, h2]

theorem from_str_radix_two_hex (c1 c2 : Char) (d1 d2 : Nat) (h1 : hexVal? c1 = some d1)
    (h2 : hexVal? c2 = some d2) : from_str_radix 8 [c1, c2] = some (16 * d1 + d2) := by
  have hb1 := hexVal?_bounds c1 d1 h1
  have hb2 := hexVal?_bounds c2 d2 h2
  have hp : c1 ≠ '+' := hex_char_not_plus c1 hb1.2.1
  unfold from_str_radix
  dsimp only
  rw [if_neg hp]
  unfold fromDigits parseHexNat
  rw [List.foldl_cons, List.foldl_cons, List.foldl_nil]
  simp only [h1, h2]
  rw [show 16 * 0 + d1 = d1 from by omega]
  rw [if_pos (by norm_num; omega)]

/-- The `'T'` arm of `parse_stop_reply` on a well-formed packet: one-byte
signal digits, arbitrary tail. -/
theorem parse_T_general (c1 c2 : Char) (d1 d2 : Nat) (rest : List Char)
    (h1 : hexVal? c1 = some d1) (h2 : hexVal? c2 = some d2) :
    parse_stop_reply ('T' :: c1 :: c2 :: rest) =
      some (some ⟨16 * d1 + d2, (stopFields (splitSemi rest)).1,
        (stopFields (splitSemi rest)).2⟩) := by
  have hs1 := hex_char_size c1 d1 h1
  have hs2 := hex_char_size c2 d2 h2
  have hT : charUtf8Size 'T' = 1 := by decide
  unfold parse_stop_reply
  rw [if_neg (by simp [List.head?] : ¬('T' :: c1 :: c2 :: rest = []))]
  rw [if_neg (by simp : ¬((('T' : Char) :: c1 :: c2 :: rest).head? = some 'S' ∧
    3 ≤ utf8Len ('T' :: c1 :: c2 :: rest)))]
  rw [if_pos (by simp : (('T' : Char) :: c1 :: c2 :: rest).head? = some 'T')]
  rw [splitAtByte_one 'T' (c1 :: c2 :: rest) hT]
  dsimp only
  rw [splitAtByte_two c1 c2 rest hs1 hs2]
  dsimp only
  rw [from_str_radix_two_hex c1 c2 d1 d2 h1 h2]

theorem splitSemi_no_semi (s : List Char) (h : ';' ∉ s) : splitSemi s = [s] := by
  induction s with
  | nil => rfl
  | cons c rest ih =>
    have hc : c ≠ ';' := fun hc => h (hc ▸ List.mem_cons_self c rest)
    have hr : ';' ∉ rest := fun hr => h (List.mem_cons_of_mem c hr)
    rw [splitSemi, if_neg hc, ih hr]

theorem stripTag_self_append (t s : List Char) : stripTag t (t ++ s) = some s := by
  induction t with
  | nil => rfl
  | cons c ts ih => rw [List.cons_append, stripTag, if_pos rfl, ih]

theorem stripTag_thread_reason (w : List Char) :
    stripTag ("thread:".data) ("reason:".data ++ w) = none := by
  rw [show ("thread:".data) = 't' :: "hread:".data from by decide,
    show ("reason:".data) = 'r' :: "eason:".data from by decide]
  rw [List.cons_append, stripTag, if_neg (by decide)]

theorem stopFieldStep_reason (acc : Option Nat × StopReason) (w : List Char) :
    stopFieldStep acc ("reason:".data ++ w) =
      (acc.1,
        if w = "breakpoint".data then StopReason.breakpoint
        else if w = "single-step".data then StopReason.step
        else StopReason.unknown (String.mk w)) := by
  rw [stopFieldStep, stripTag_thread_reason w, stripTag_self_append]

theorem stopFieldStep_snd_of_no_reason (acc : Option Nat × StopReason) (part : List Char)
    (h : stripTag ("reason:".data) part = none) : (stopFieldStep acc part).2 = acc.2 := by
  rw [stopFieldStep]
  cases ht : stripTag ("thread:".data) part with
  | some rest =>
    dsimp only
    cases from_str_radix 64 rest <;> rfl
  | none =>
    dsimp only
    rw [h]

theorem stopFields_no_reason_aux (parts : List (List Char)) :
    ∀ acc : Option Nat × StopReason, (∀ part ∈ parts, stripTag ("reason:".data) part = none) →
      (parts.foldl stopFieldStep acc).2 = acc.2 := by
  induction parts with
  | nil => intro acc _; rfl
  | cons part rest ih =>
    intro acc h
    rw [List.foldl_cons, ih _ (fun q hq => h q (List.mem_cons_of_mem part hq))]
    exact stopFieldStep_snd_of_no_reason acc part (h part (List.mem_cons_self part rest))

theorem parse_stop_reply_not_ST (reply : List Char) (hs : reply.head? ≠ some 'S')
    (ht : reply.head? ≠ some 'T') : parse_stop_reply reply = some none := by
  by_cases h0 : reply = []
  · rw [parse_stop_reply, if_pos h0]
  · rw [parse_stop_reply, if_neg h0, if_neg (fun hc => hs hc.1), if_neg ht]

theorem parse_stop_reply_short_S (reply : List Char) (hs : reply.head? = some 'S')
    (hlen : utf8Len reply < 3) : parse_stop_reply reply = some none := by
  have h0 : reply ≠ [] := by
    intro h; rw [h] at hs; simp at hs
  have ht : reply.head? ≠ some 'T' := by
    rw [hs]; simp
  rw [parse_stop_reply, if_neg h0, if_neg (fun hc => by omega : ¬(reply.head? = some 'S' ∧
    3 ≤ utf8Len reply)), if_neg ht]

/-- C4 amended.  The two scenario inputs parse as the claim states; for
every `'T'` packet with a hex signal, a lone `reason:<word>` key maps
`breakpoint` to `Breakpoint`, `single-step` to `Step` and any other word
to `Unknown(word)` (with no thread id recorded); every packet that
begins with neither `'S'` nor `'T'` yields `None`, as does an `'S'`
packet shorter than 3 bytes — but a `'T'` packet shorter than 3 bytes
panics instead of yielding `None` (see the counterexample), so the
`None` clause holds only away from that arm. -/
theorem parse_stop_reply_grammar :
    parse_stop_reply "S05".data = some (some ⟨5, none, StopReason.signal⟩) ∧
    parse_stop_reply "T05thread:1;reason:breakpoint;".data
      = some (some ⟨5, some 1, StopReason.breakpoint⟩) ∧
    (∀ (c1 c2 : Char) (d1 d2 : Nat) (w : List Char), hexVal? c1 = some d1 →
      hexVal? c2 = some d2 → ';' ∉ w →
      parse_stop_reply ('T' :: c1 :: c2 :: ("reason:".data ++ w)) =
        some (some ⟨16 * d1 + d2, none,
          if w = "breakpoint".data then StopReason.breakpoint
          else if w = "single-step".data then StopReason.step
          else StopReason.unknown (String.mk w)⟩)) ∧
    (∀ reply : List Char, reply.head? ≠ some 'S' → reply.head? ≠ some 'T' →
      parse_stop_reply reply = some none) ∧
    (∀ reply : List Char, reply.head? = some 'S' → utf8Len reply < 3 →
      parse_stop_reply reply = some none) := by
  refine ⟨by decide, by decide, ?_, parse_stop_reply_not_ST, parse_stop_reply_short_S⟩
  intro c1 c2 d1 d2 w h1 h2 hw
  rw [parse_T_general c1 c2 d1 d2 _ h1 h2]
  have hsemi : ';' ∉ ("reason:".data ++ w) := by
    intro hmem
    rcases List.mem_append.mp hmem with hin | hin
    · revert hin; decide
    · exact hw hin
  rw [splitSemi_no_semi _ hsemi, stopFields, List.foldl_cons, List.foldl_nil,
    stopFieldStep_reason]

theorem parse_stop_reply_grammar_witness :
    hexVal? '0' = some 0 ∧ hexVal? '5' = some 5 ∧ ';' ∉ "watchpoint".data ∧
      parse_stop_reply ('T' :: '0' :: '5' :: ("reason:".data ++ "watchpoint".data)) =
        some (some ⟨16 * 0 + 5, none,
          if "watchpoint".data = "breakpoint".data then StopReason.breakpoint
          else if "watchpoint".data = "single-step".data then StopReason.step
          else StopReason.unknown (String.mk "watchpoint".data)⟩) :=
  ⟨by decide, by decide, by decide,
    parse_stop_reply_grammar.2.2.1 '0' '5' 0 5 "watchpoint".data (by decide) (by decide)
      (by decide)⟩

/-- C10 counterexample.  `u8::from_str_radix` accepts a leading `'+'`,
so the packet `"S+5"` — whose two signal characters are *not* two hex
digits (`'+'` is not hexadecimal) — still parses to signal `5` instead
of yielding `None`. -/
theorem parse_stop_reply_plus_digit_signal :
    hexVal? '+' = none ∧
      parse_stop_reply "S+5".data = some (some ⟨5, none, StopReason.signal⟩) := by
  decide

/-- C10 amended.  A `'T'` packet with a hex signal and no `reason:` key
parses with reason `Unknown("signal")` (not `Signal`); an `'S'` or `'T'`
packet whose two signal bytes are rejected by `from_str_radix` (not two
hex digits, and not `'+'` followed by a hex digit — see the
counterexample for the `'+'` case) yields `None`; and `wait_for_stop`
skips any packet on which `parse_stop_reply` yields `None` and keeps
reading. -/
theorem stop_reply_unknown_signal_and_invalid_hex :
    (∀ (c1 c2 : Char) (d1 d2 : Nat) (rest : List Char), hexVal? c1 = some d1 →
      hexVal? c2 = some d2 →
      (∀ part ∈ splitSemi rest, stripTag ("reason:".data) part = none) →
      parse_stop_reply ('T' :: c1 :: c2 :: rest) =
        some (some ⟨16 * d1 + d2, (stopFields (splitSemi rest)).1,
          StopReason.unknown "signal"⟩)) ∧
    (∀ (c1 c2 : Char) (rest : List Char), charUtf8Size c1 = 1 → charUtf8Size c2 = 1 →
      from_str_radix 8 [c1, c2] = none →
      parse_stop_reply ('S' :: c1 :: c2 :: rest) = some none ∧
        parse_stop_reply ('T' :: c1 :: c2 :: rest) = some none) ∧
    (∀ (p : List Char) (rest : List (List Char)), parse_stop_reply p = some none →
      wait_for_stop (p :: rest) = wait_for_stop rest) := by
  refine ⟨?_, ?_, ?_⟩
  · intro c1 c2 d1 d2 rest h1 h2 hnr
    rw [parse_T_general c1 c2 d1 d2 rest h1 h2, stopFields,
      stopFields_no_reason_aux (splitSemi rest) _ hnr]
  · intro c1 c2 rest hs1 hs2 hfr
    have hS : charUtf8Size 'S' = 1 := by decide
    have hT : charUtf8Size 'T' = 1 := by decide
    constructor
    · rw [parse_stop_reply, if_neg (by simp : ¬('S' :: c1 :: c2 :: rest = []))]
      rw [if_pos ⟨by simp, by simp [utf8Len, hS, hs1, hs2]; omega⟩]
      rw [splitAtByte_one 'S' (c1 :: c2 :: rest) hS]
      dsimp only
      rw [splitAtByte_two c1 c2 rest hs1 hs2]
      dsimp only
      rw [hfr]
    · rw [parse_stop_reply, if_neg (by simp : ¬('T' :: c1 :: c2 :: rest = []))]
      rw [if_neg (by simp : ¬((('T' : Char) :: c1 :: c2 :: rest).head? = some 'S' ∧
        3 ≤ utf8Len ('T' :: c1 :: c2 :: rest)))]
      rw [if_pos (by simp : (('T' : Char) :: c1 :: c2 :: rest).head? = some 'T')]
      rw [splitAtByte_one 'T' (c1 :: c2 :: rest) hT]
      dsimp only
      rw [splitAtByte_two c1 c2 rest hs1 hs2]
      dsimp only
      rw [hfr]
  · intro p rest h
    rw [wait_for_stop, h]

theorem stop_reply_unknown_signal_witness :
    hexVal? '0' = some 0 ∧ hexVal? '5' = some 5 ∧
      (∀ part ∈ splitSemi "thread:7".data, stripTag ("reason:".data) part = none) ∧
      parse_stop_reply ('T' :: '0' :: '5' :: "thread:7".data) =
        some (some ⟨16 * 0 + 5, (stopFields (splitSemi "thread:7".data)).1,
          StopReason.unknown "signal"⟩) ∧
      charUtf8Size 'x' = 1 ∧ charUtf8Size 'y' = 1 ∧ from_str_radix 8 ['x', 'y'] = none ∧
      parse_stop_reply ('S' :: 'x' :: 'y' :: []) = some none ∧
      parse_stop_reply "OK".data = some none ∧
      wait_for_stop ["OK".data, "S05".data] = wait_for_stop ["S05".data] :=
  ⟨by decide, by decide, by decide,
    stop_reply_unknown_signal_and_invalid_hex.1 '0' '5' 0 5 "thread:7".data (by decide)
      (by decide) (by decide),
    by decide, by decide, by decide,
    (stop_reply_unknown_signal_and_invalid_hex.2.1 'x' 'y' [] (by decide) (by decide)
      (by decide)).1,
    by decide,
    stop_reply_unknown_signal_and_invalid_hex.2.2 "OK".data ["S05".data] (by decide)⟩

/-! ## C7: unknown commands -/

/-- C7.  For every session and every request whose command is not one of
the thirteen recognized commands, `handle_request` writes exactly one
response, with `success = false` and message
`"Unknown command: " ++ command`, numbered with the session's current
`next_seq`, and returns `true` so the main loop keeps servicing
requests. -/
theorem unknown_command_error_response (s : Session) (request : RawRequest)
    (h : request.command ∉ knownCommands) :
    handle_request s request =
      ({ s with next_seq := s.next_seq + 1 },
        [⟨s.next_seq,
          MsgKind.response request.seq false request.command
            (some ("Unknown command: " ++ request.command)), none⟩],
        true) := by
  simp only [knownCommands, List.mem_cons, List.mem_singleton, not_or] at h
  unfold handle_request
  split <;> simp_all [Session.send_error_response, Session.respond]

theorem unknown_command_error_response_witness :
    ("bogus" : String) ∉ knownCommands ∧
      handle_request (Session.new sampleBackend) ⟨1, "bogus", failArguments⟩ =
        ({ Session.new sampleBackend with next_seq := 1 + 1 },
          [⟨1, MsgKind.response 1 false "bogus" (some ("Unknown command: " ++ "bogus")),
            none⟩],
          true) :=
  ⟨by decide, unknown_command_error_response (Session.new sampleBackend)
    ⟨1, "bogus", failArguments⟩ (by decide)⟩

/-! ## C8: setBreakpoints without an RSP connection -/

theorem plantRanges_no_client (b : Backend) (hg : b.gdb_client = none)
    (ranges : List AddressRange) : plantRanges b ranges = Except.ok () := by
  induction ranges with
  | nil => rfl
  | cons r rest ih => rw [plantRanges, hg, ih]

theorem processLines_no_client (b : Backend) (idx : LineIndex) (canonical : String)
    (hg : b.gdb_client = none) (lines : List Int) :
    processLines b idx canonical lines = Except.ok () := by
  induction lines with
  | nil => rfl
  | cons line rest ih =>
    rw [processLines]
    by_cases hle : line ≤ 0
    · rw [if_pos hle, ih]
    · rw [if_neg hle]
      by_cases hr : idx.lookup canonical line.toNat = []
      · rw [if_pos hr, ih]
      · rw [if_neg hr, plantRanges_no_client b hg, ih]

theorem update_breakpoints_no_client_ok (b : Backend) (idx : LineIndex)
    (source_path : String) (lines : List Int) (hg : b.gdb_client = none)
    (hi : b.line_index = some idx) :
    (b.update_breakpoints source_path lines).2 = Except.ok () := by
  rw [Backend.update_breakpoints]
  rw [show Backend.ensure_line_index
      { b with breakpoints := insertBreakpoints b.breakpoints source_path lines } =
      ({ b with breakpoints := insertBreakpoints b.breakpoints source_path lines },
        Except.ok ()) from by rw [Backend.ensure_line_index]; rw [hi]]
  dsimp only
  rw [hi]
  dsimp only
  exact processLines_no_client
    { b with
      breakpoints := insertBreakpoints b.breakpoints source_path lines
      line_index := some idx }
    idx source_path hg lines

/-- C8.  When the backend has no RSP client and the line index is
already built, `update_breakpoints` succeeds for every source path and
requested lines (planting is skipped), and the `setBreakpoints` handler
answers with a single `success = true` response whose body marks every
requested breakpoint `verified = true` at its requested line. -/
theorem set_breakpoints_without_rsp (s : Session) (request : RawRequest) (idx : LineIndex)
    (src : Source) (bps : List SourceBreakpoint) (path : String)
    (hg : s.backend.gdb_client = none) (hi : s.backend.line_index = some idx)
    (hcmd : request.command = "setBreakpoints")
    (hargs : request.arguments.as_set_breakpoints = Except.ok ⟨src, bps⟩)
    (hpath : src.path = some path) :
    (∀ (b : Backend) (source_path : String) (lines : List Int), b.gdb_client = none →
      b.line_index = some idx → (b.update_breakpoints source_path lines).2 = Except.ok ()) ∧
    (handle_request s request).2 =
      ([⟨s.next_seq,
          MsgKind.response request.seq true "setBreakpoints" none,
          some (DapBody.breakpointsBody (bps.map (fun bp => (true, bp.line))))⟩],
        true) := by
  refine ⟨fun b sp lines hg' hi' => update_breakpoints_no_client_ok b idx sp lines hg' hi', ?_⟩
  obtain ⟨rseq, rcmd, rargs⟩ := request
  dsimp only at hcmd hargs ⊢
  subst hcmd
  rw [show handle_request s ⟨rseq, "setBreakpoints", rargs⟩ =
    handle_set_breakpoints s rseq "setBreakpoints" rargs from rfl]
  unfold handle_set_breakpoints
  rw [hargs]
  dsimp only
  rw [hpath]
  dsimp only
  have hupd := update_breakpoints_no_client_ok s.backend idx path
    (bps.map (fun bp => bp.line)) hg hi
  rcases hres : s.backend.update_breakpoints path (bps.map (fun bp => bp.line)) with ⟨b2, res⟩
  rw [hres] at hupd
  dsimp only at hupd
  rw [hres, hupd]
  rfl

theorem set_breakpoints_without_rsp_witness :
    (Session.new sampleBackend).backend.gdb_client = none ∧
      (Session.new sampleBackend).backend.line_index = some fooLineIndex ∧
      (handle_request (Session.new sampleBackend) ⟨3, "setBreakpoints", fooSetBpArguments⟩).2 =
        ([⟨1, MsgKind.response 3 true "setBreakpoints" none,
            some (DapBody.breakpointsBody ([(⟨42⟩ : SourceBreakpoint)].map
              (fun bp => (true, bp.line))))⟩],
          true) :=
  ⟨rfl, rfl,
    (set_breakpoints_without_rsp (Session.new sampleBackend)
      ⟨3, "setBreakpoints", fooSetBpArguments⟩ fooLineIndex ⟨some "/tmp/foo.rs"⟩ [⟨42⟩]
      "/tmp/foo.rs" rfl rfl rfl rfl rfl).2⟩

/-! ## C9: stack frames -/

theorem wrapI64_in_range (x : Int) (h1 : -(2 ^ 63) ≤ x) (h2 : x < 2 ^ 63) : wrapI64 x = x := by
  unfold wrapI64
  omega

theorem wrapAdd64_toU64 (v : Nat) (s : Int) : wrapAdd64 v (toU64 s) = addSlide v s := by
  simp only [wrapAdd64, toU64, addSlide]
  omega

theorem enumFrom_get? {α : Type} (l : List α) :
    ∀ (n i : Nat), (List.enumFrom n l).get? i = (l.get? i).map (fun a => (n + i, a)) := by
  induction l with
  | nil => intro n i; simp
  | cons a t ih =>
    intro n i
    cases i with
    | zero => simp
    | succ j =>
      have harith : n + 1 + j = n + (j + 1) := by omega
      simp [List.enumFrom, ih (n + 1) j, harith]

theorem enum_get? {α : Type} (l : List α) (i : Nat) :
    l.enum.get? i = (l.get? i).map (fun a => (i, a)) := by
  rw [List.enum, enumFrom_get? l 0 i]
  simp

theorem renderFrame_unknown (b : Backend) (i : Nat) (fid : Int) (pc : Nat)
    (h : ((symbolize_frames b.symbol_ctx pc).toOption.bind List.head?) = none) :
    renderFrame b i fid pc =
      ⟨fid, "<unknown>", 0, 1, "<unknown>", "<unknown>",
        if i = 0 then "normal" else "subtle"⟩ := by
  have hrs : rsplitLastSeg "<unknown>" = "<unknown>" := by decide
  simp only [renderFrame]
  rw [h]
  simp [hrs]

/-- C9.  With no installed frame provider, `backend_fetch_frames`
returns the single frame `(thread_id * 100 + 1, vmaddr_text + slide)`
(the sum wrapping modulo `2^64`), and `stack_trace` returns exactly one
frame; and every raw frame whose PC symbolication yields no frames is
rendered with name `"<unknown>"`, source path `"<unknown>"`, line `0`
and column `1`. -/
theorem stack_trace_default_and_unknown :
    (∀ (b : Backend) (thread_id : Int), b.frame_provider = none →
      -(2 ^ 63) ≤ thread_id * 100 + 1 → thread_id * 100 + 1 < 2 ^ 63 →
      backend_fetch_frames b thread_id =
        [(thread_id * 100 + 1,
          addSlide b.symbol_ctx.main.vmaddr_text b.symbol_ctx.main.slide)] ∧
      (b.stack_trace thread_id).length = 1) ∧
    (∀ (b : Backend) (thread_id : Int) (i : Nat) (fid : Int) (pc : Nat),
      (backend_fetch_frames b thread_id).get? i = some (fid, pc) →
      ((symbolize_frames b.symbol_ctx pc).toOption.bind List.head?) = none →
      (b.stack_trace thread_id).get? i =
        some ⟨fid, "<unknown>", 0, 1, "<unknown>", "<unknown>",
          if i = 0 then "normal" else "subtle"⟩) := by
  constructor
  · intro b thread_id hprov hlo hhi
    have hfetch : backend_fetch_frames b thread_id =
        [(thread_id * 100 + 1,
          addSlide b.symbol_ctx.main.vmaddr_text b.symbol_ctx.main.slide)] := by
      rw [backend_fetch_frames, hprov, wrapI64_in_range _ hlo hhi, wrapAdd64_toU64]
    refine ⟨hfetch, ?_⟩
    rw [Backend.stack_trace, hfetch]
    rfl
  · intro b thread_id i fid pc hget hnone
    rw [Backend.stack_trace, List.get?_map, enum_get?, hget]
    dsimp only [Option.map]
    rw [renderFrame_unknown b i fid pc hnone]

theorem stack_trace_default_and_unknown_witness :
    (sampleBackend.frame_provider = none ∧
      backend_fetch_frames sampleBackend 7 = [(7 * 100 + 1, addSlide 4096 8192)] ∧
      (sampleBackend.stack_trace 7).length = 1) ∧
    ((backend_fetch_frames deadbeefBackend 1).get? 0 = some (7, 0xDEADBEEF) ∧
      (deadbeefBackend.stack_trace 1).get? 0 =
        some ⟨7, "<unknown>", 0, 1, "<unknown>", "<unknown>", "normal"⟩) := by
  constructor
  · have h := stack_trace_default_and_unknown.1 sampleBackend 7 rfl (by norm_num)
      (by norm_num)
    exact ⟨rfl, h.1, h.2⟩
  · have h := stack_trace_default_and_unknown.2 deadbeefBackend 1 0 7 0xDEADBEEF rfl rfl
    exact ⟨rfl, h⟩

/-! ## C6: outbound sequence numbering -/

theorem intRange_one (k : Int) : intRange k 1 = [k] := by
  rw [intRange, show List.range 1 = [0] from rfl]
  simp

theorem intRange_two (k : Int) : intRange k 2 = [k, k + 1] := by
  rw [intRange, show List.range 2 = [0, 1] from rfl]
  simp

theorem intRange_append (k : Int) (m n : Nat) :
    intRange k (m + n) = intRange k m ++ intRange (k + m) n := by
  have hfun : ((fun i : Nat => k + (i : Int)) ∘ fun j => m + j) =
      fun j : Nat => (k + (m : Int)) + (j : Int) := by
    funext j
    simp [Function.comp]
    ring
  rw [intRange, List.range_add, List.map_append, List.map_map, hfun]
  rfl

theorem handle_request_seqs (s : Session) (request : RawRequest) :
    HandlerSeqs (handle_request s request) s.next_seq := by
  rcases request with ⟨rseq, rcmd, rargs⟩
  unfold HandlerSeqs handle_request
  dsimp only
  split <;>
    simp only [handle_initialize_req, handle_launch, handle_attach, handle_set_breakpoints,
      handle_simple_ok, handle_threads, handle_stack_trace, handle_scopes, handle_variables,
      handle_continue, handle_next, handle_step_in, handle_disconnect, Session.respond,
      Session.send_error_response, Session.emit_event, emit_stop_event] <;>
    (repeat' split) <;>
    simp [intRange_one, intRange_two] <;>
    omega

theorem run_session_seqs (requests : List RawRequest) :
    ∀ s : Session, (run_session s requests).2.map DapMessage.seq =
      intRange s.next_seq (run_session s requests).2.length := by
  induction requests with
  | nil =>
    intro s
    rw [show run_session s [] = (s, []) from rfl]
    rfl
  | cons request rest ih =>
    intro s
    have hspec := handle_request_seqs s request
    rw [run_session]
    rcases hh : handle_request s request with ⟨s', msgs, cont⟩
    rw [hh] at hspec
    obtain ⟨hmap, hnext⟩ := hspec
    cases cont with
    | true =>
      dsimp only
      rw [List.map_append, List.length_append, intRange_append, hmap, ih s', hnext]
    | false =>
      dsimp only
      exact hmap

/-- C6.  Over any run of the session loop from a fresh session, the
outbound responses and events carry the seq values `1, 2, 3, ...` in
order: the first message has seq 1 and each subsequent message's seq is
exactly one greater than the previous. -/
theorem session_seq_strictly_increasing (backend : Backend) (requests : List RawRequest) :
    (run_session (Session.new backend) requests).2.map DapMessage.seq =
      intRange 1 (run_session (Session.new backend) requests).2.length :=
  run_session_seqs requests (Session.new backend)
